import Mathlib

/-!
Verification development for the plugin reconciler
(`lib/charms/opensearch/v0/opensearch_plugin_manager.py`).

The Python module is shallowly embedded: the ambient charm state (catalog,
charm config, relations, service/health probes, install-command outcomes)
becomes a read-only `Env`; the mutable external stores (the node's
installed-plugin list, the configuration store, the secret/keystore store)
become a `World` threaded through every operation; exceptions become
`Except`; each mutating external call is additionally recorded in a trace
of `Action`s so that "phase X performed an action" is a statement about the
trace.
-/

namespace PluginMgr

/-- Cluster health colors (enum referenced by the gate in `run`). -/
inductive HealthColors where
  | green
  | yellow
  | red
  | unknown
deriving DecidableEq, Repr

/-- Lifecycle state of a plugin, computed by `status`, never stored. -/
inductive PluginState where
  | missing
  | installed
  | enabled
  | waitingForUpgrade
deriving DecidableEq, Repr

/-- The add/delete sets of a plugin's configuration delta
(`OpenSearchPluginConfig`). -/
structure OpenSearchPluginConfig where
  config_entries_to_add : List (String × String) := []
  config_entries_to_del : List String := []
  secret_entries_to_add : List (String × String) := []
  secret_entries_to_del : List String := []
deriving DecidableEq, Repr

/-- A plugin descriptor: name, version, dependency names, and the enable /
disable deltas.  `config = none` models `plugin.config()` raising a
`KeyError` while building the delta (and likewise for `disable`). -/
structure OpenSearchPlugin where
  name : String
  version : String := ""
  dependencies : List String := []
  config : Option OpenSearchPluginConfig := none
  disable : Option OpenSearchPluginConfig := none
deriving DecidableEq, Repr

/-- One row of `ConfigExposedPlugins`: the plugin it instantiates, the
gating charm-config key and the gating relation name (either may be
absent). -/
structure CatalogEntry where
  name : String
  configKey : Option String := none
  relationName : Option String := none
  plugin : OpenSearchPlugin
deriving DecidableEq, Repr

/-- Outcome of the external `opensearch-plugin install` command for one
plugin name. -/
inductive InstallOutcome where
  | success
  | alreadyExists
  | otherError (msg : String)
deriving DecidableEq, Repr

/-- Errors raised by the plugin manager (the `OpenSearchPlugin*Error`
hierarchy; payloads identify the raising site). -/
inductive PluginErr where
  | clusterNotReady
  | missingConfig
  | missingDeps (name : String) (deps : List String)
  | installError (msg : String)
  | pluginError (msg : String)
deriving DecidableEq, Repr

/-- The mutable external stores: the managed node's installed-plugin list,
the configuration store (opensearch.yml plugin entries) and the secret
store (keystore). -/
structure World where
  installedPlugins : List String := []
  ymlConf : List (String × String) := []
  keystoreEntries : List (String × String) := []
deriving DecidableEq, Repr

/-- Read-only ambient charm state for one reconciliation cycle: the
catalog, charm config options, relation presence (name to connected remote
unit count), the service/health probes, the outcome each install command
would have, and whether the `opensearch-plugin list` command fails. -/
structure Env where
  catalog : List CatalogEntry := []
  configOptions : List (String × Bool) := []
  relations : List (String × Nat) := []
  isStarted : Bool := true
  health : HealthColors := .green
  version : String := ""
  installOutcome : List (String × InstallOutcome) := []
  listFails : Bool := false
deriving Repr

/-- Trace of mutating external calls made during a cycle. -/
inductive Action where
  | installCmd (name : String)
  | keystoreDel (keys : List String)
  | keystoreAdd (entries : List (String × String))
  | configDel (keys : List String)
  | configAdd (entries : List (String × String))
deriving DecidableEq, Repr

/-- Modelled from the spec: store `add` semantics ("adding an
already-present identical entry is a no-op", §4.5) — insert one entry,
overwriting the value if the key is already present. -/
def upsert (m : List (String × String)) (kv : String × String) :
    List (String × String) :=
  if (m.lookup kv.1).isSome then
    m.map (fun p => if p.1 = kv.1 then (p.1, kv.2) else p)
  else m ++ [kv]

/-- Modelled from the spec: `add_plugin_config(mapping)` / secret-store
`add(mapping)` (§6) — upsert every entry of the mapping. -/
def addEntries (m new : List (String × String)) : List (String × String) :=
  new.foldl upsert m

/-- Modelled from the spec: `delete_plugin_config(keys)` / secret-store
`delete(keys)` (§6); "deleting an already-absent entry is a no-op" (§4.5). -/
def delEntries (m : List (String × String)) (ks : List String) :
    List (String × String) :=
  m.filter (fun p => !ks.contains p.1)

/-- Modelled from the spec: `get_plugin_config(keys) -> mapping` (§6), the
configuration-store read used by the enabled-check — the store restricted
to the requested keys (a requested key absent from the store is absent from
the result, so exact mapping equality fails for it). -/
def getPluginConf (requested : List (String × String))
    (yml : List (String × String)) : List (String × String) :=
  requested.filterMap (fun kv => (yml.lookup kv.1).map (fun v => (kv.1, v)))

/-- Splitting a character list at every dot (auxiliary to `splitDots`). -/
def splitDotsAux : List Char → List (List Char)
  | [] => [[]]
  | c :: cs =>
    if c = '.' then [] :: splitDotsAux cs
    else match splitDotsAux cs with
      | h :: t => (c :: h) :: t
      | [] => [[c]]

/-- Embedding of Python `str.split(".")` (used by `_needs_upgrade`). -/
def splitDots (s : String) : List String :=
  (splitDotsAux s.toList).map String.mk

/-- Embedding of Python `".".join(...)` (used by `_needs_upgrade`). -/
def joinDots : List String → String
  | [] => ""
  | [x] => x
  | x :: xs => x ++ "." ++ joinDots xs

/-- Embedding of `_installed_plugins`: run `opensearch-plugin list`; a command error is
re-raised as a plugin error (never downgraded). -/
def listInstalledPlugins (env : Env) (w : World) :
    Except PluginErr (List String) :=
  if env.listFails then .error (.pluginError "Failed to list plugins")
  else .ok w.installedPlugins

/-- Embedding of `_is_installed`: the plugin's name occurs in the installed-plugin
list. -/
def isInstalled (env : Env) (w : World) (plugin : OpenSearchPlugin) :
    Except PluginErr Bool :=
  match listInstalledPlugins env w with
  | .error e => .error e
  | .ok l => .ok (decide (plugin.name ∈ l))

/-- Embedding of `_is_enabled`: the plugin's `config_entries_to_add` exactly equal what
the configuration store currently holds for those keys; a `KeyError` while
building the delta (`config = none`) is caught and treated as "not
enabled". -/
def isEnabled (yml : List (String × String)) (plugin : OpenSearchPlugin) :
    Bool :=
  match plugin.config with
  | none => false
  | some c =>
    let plugin_conf := c.config_entries_to_add
    let stored_plugin_conf := getPluginConf plugin_conf yml
    decide (plugin_conf = stored_plugin_conf)

/-- Embedding of `_needs_upgrade`: split both version strings on dots, truncate both to
the shorter length, and compare the re-joined prefixes. -/
def needsUpgrade (version plugin_version : String) : Bool :=
  let v := splitDots version
  let pv := splitDots plugin_version
  let num_points := min pv.length v.length
  decide (joinDots (v.take num_points) ≠ joinDots (pv.take num_points))

/-- Embedding of `status`: MISSING if not installed, else INSTALLED if not enabled,
else WAITING_FOR_UPGRADE if an upgrade is pending, else ENABLED. -/
def status (env : Env) (w : World) (plugin : OpenSearchPlugin) :
    Except PluginErr PluginState :=
  match isInstalled env w plugin with
  | .error e => .error e
  | .ok inst =>
    if !inst then .ok .missing
    else if !(isEnabled w.ymlConf plugin) then .ok .installed
    else if needsUpgrade env.version plugin.version then .ok .waitingForUpgrade
    else .ok .enabled

/-- Embedding of `self._charm.config.get(key, False)`: a catalog entry with no config
key (`None`) reads the default `False`; otherwise look the option up,
defaulting to false. -/
def configGet (env : Env) (key : Option String) : Bool :=
  match key with
  | none => false
  | some k => (env.configOptions.lookup k).getD false

/-- Embedding of `_is_plugin_relation_set`: false when no relation name is configured
(or it is empty), false when the relation does not exist, else true iff it
has at least one connected remote unit. -/
def isPluginRelationSet (env : Env) (relationName : Option String) : Bool :=
  match relationName with
  | none => false
  | some r =>
    if r = "" then false
    else match env.relations.lookup r with
      | none => false
      | some n => decide (0 < n)

/-- Embedding of `_user_requested_to_enable`: look the plugin up in
`ConfigExposedPlugins` (a miss is a `KeyError`, modelled as `.error ()`);
returns false iff the config option is falsy and the relation is not set. -/
def userRequestedToEnable (env : Env) (plugin : OpenSearchPlugin) :
    Except Unit Bool :=
  match env.catalog.find? (fun e => e.name == plugin.name) with
  | none => .error ()
  | some plugin_data =>
    if !configGet env plugin_data.configKey
        && !isPluginRelationSet env plugin_data.relationName then
      .ok false
    else .ok true

/-- Embedding of `_apply_config`: keystore deletions, keystore additions, then (each
guarded by non-emptiness, as in the source) configuration deletions and
additions; returns true iff the delta's configuration entries to add or to
delete are non-empty. -/
def applyConfig (config : OpenSearchPluginConfig) (w : World) :
    Bool × World × List Action :=
  let ksDelActs : List Action :=
    if config.secret_entries_to_del.isEmpty then []
    else [.keystoreDel config.secret_entries_to_del]
  let w1 : World :=
    { w with keystoreEntries := delEntries w.keystoreEntries config.secret_entries_to_del }
  let ksAddActs : List Action :=
    if config.secret_entries_to_add.isEmpty then []
    else [.keystoreAdd config.secret_entries_to_add]
  let w2 : World :=
    { w1 with keystoreEntries := addEntries w1.keystoreEntries config.secret_entries_to_add }
  let step3 : World × List Action :=
    if config.config_entries_to_del.isEmpty then (w2, [])
    else ({ w2 with ymlConf := delEntries w2.ymlConf config.config_entries_to_del },
      [.configDel config.config_entries_to_del])
  let step4 : World × List Action :=
    if config.config_entries_to_add.isEmpty then (step3.1, [])
    else ({ step3.1 with ymlConf := addEntries step3.1.ymlConf config.config_entries_to_add },
      [.configAdd config.config_entries_to_add])
  (!config.config_entries_to_add.isEmpty || !config.config_entries_to_del.isEmpty,
    step4.1, ksDelActs ++ ksAddActs ++ step3.2 ++ step4.2)

/-- Embedding of `_install_if_needed`: read the installed-plugin list, then (try block)
check MISSING + user-requested, check dependencies, and run the install
command; `KeyError` becomes a missing-config error, a command error
containing "already exists" is a benign no-op returning false, any other
command error is a fatal install error. -/
def installIfNeeded (env : Env) (w : World) (plugin : OpenSearchPlugin) :
    Except PluginErr Bool × World × List Action :=
  match listInstalledPlugins env w with
  | .error e => (.error e, w, [])
  | .ok installed_plugins =>
    match status env w plugin with
    | .error e => (.error e, w, [])
    | .ok st =>
      if st ≠ .missing then (.ok false, w, [])
      else
        match userRequestedToEnable env plugin with
        | .error _ => (.error .missingConfig, w, [])
        | .ok requested =>
          if !requested then (.ok false, w, [])
          else
            let missing_deps :=
              plugin.dependencies.filter (fun dep => !installed_plugins.contains dep)
            if !missing_deps.isEmpty then
              (.error (.missingDeps plugin.name missing_deps), w, [])
            else
              match (env.installOutcome.lookup plugin.name).getD .success with
              | .success =>
                (.ok true,
                  { w with installedPlugins := w.installedPlugins ++ [plugin.name] },
                  [.installCmd plugin.name])
              | .alreadyExists => (.ok false, w, [.installCmd plugin.name])
              | .otherError msg =>
                (.error (.installError (plugin.name ++ ": " ++ msg)), w,
                  [.installCmd plugin.name])

/-- Embedding of `_configure_if_needed`: if the user requested the plugin and its status
is INSTALLED, apply the enable delta; `KeyError` (catalog miss or
`plugin.config()`) becomes a missing-config error. -/
def configureIfNeeded (env : Env) (w : World) (plugin : OpenSearchPlugin) :
    Except PluginErr Bool × World × List Action :=
  match userRequestedToEnable env plugin with
  | .error _ => (.error .missingConfig, w, [])
  | .ok requested =>
    if !requested then (.ok false, w, [])
    else
      match status env w plugin with
      | .error e => (.error e, w, [])
      | .ok st =>
        if st ≠ .installed then (.ok false, w, [])
        else
          match plugin.config with
          | none => (.error .missingConfig, w, [])
          | some c =>
            let r := applyConfig c w
            (.ok r.1, r.2.1, r.2.2)

/-- Embedding of `_disable_if_needed`: if the user did not request the plugin and its
status is ENABLED or WAITING_FOR_UPGRADE, apply the disable delta;
`KeyError` becomes a missing-config error. -/
def disableIfNeeded (env : Env) (w : World) (plugin : OpenSearchPlugin) :
    Except PluginErr Bool × World × List Action :=
  match userRequestedToEnable env plugin with
  | .error _ => (.error .missingConfig, w, [])
  | .ok requested =>
    if requested then (.ok false, w, [])
    else
      match status env w plugin with
      | .error e => (.error e, w, [])
      | .ok st =>
        if st ≠ .enabled ∧ st ≠ .waitingForUpgrade then (.ok false, w, [])
        else
          match plugin.disable with
          | none => (.error .missingConfig, w, [])
          | some c =>
            let r := applyConfig c w
            (.ok r.1, r.2.1, r.2.2)

/-- The gate condition of `run`, exactly as written in the source:
`not is_started() and (health != GREEN or health != YELLOW)` (both health
reads taken from one consistent snapshot). -/
def gateRaises (env : Env) : Bool :=
  !env.isStarted
    && (decide (env.health ≠ HealthColors.green)
        || decide (env.health ≠ HealthColors.yellow))

/-- The per-plugin loop of `run`: for each catalog entry run install,
configure and disable in order (all three are evaluated, as the source
builds the `any [...]` list eagerly), OR-ing the restart flags; an
exception anywhere aborts the loop, keeping the world mutations made so
far. -/
def runLoop (env : Env) :
    List CatalogEntry → World → Bool → Except PluginErr Bool × World × List Action
  | [], w, restart_needed => (.ok restart_needed, w, [])
  | e :: es, w, restart_needed =>
    match installIfNeeded env w e.plugin with
    | (.error err, w1, a1) => (.error err, w1, a1)
    | (.ok b1, w1, a1) =>
      match configureIfNeeded env w1 e.plugin with
      | (.error err, w2, a2) => (.error err, w2, a1 ++ a2)
      | (.ok b2, w2, a2) =>
        match disableIfNeeded env w2 e.plugin with
        | (.error err, w3, a3) => (.error err, w3, a1 ++ a2 ++ a3)
        | (.ok b3, w3, a3) =>
          match runLoop env es w3 (b1 || b2 || b3 || restart_needed) with
          | (r, w4, a4) => (r, w4, a1 ++ a2 ++ a3 ++ a4)

/-- Embedding of `run`: the cluster-readiness gate, then the per-plugin loop; returns
whether a restart is needed. -/
def run (env : Env) (w : World) : Except PluginErr Bool × World × List Action :=
  if gateRaises env then (.error .clusterNotReady, w, [])
  else runLoop env env.catalog w false

/-- The concrete `ConfigExposedPlugins` catalog of the source: the KNN
plugin gated by the `plugin_opensearch_knn` config option, and the
repository-s3 backup plugin gated by the `s3-credentials` relation. -/
def ConfigExposedPlugins (knn s3 : OpenSearchPlugin) : List CatalogEntry :=
  [{ name := "opensearch-knn", configKey := some "plugin_opensearch_knn",
     relationName := none, plugin := knn },
   { name := "repository-s3", configKey := none,
     relationName := some "s3-credentials", plugin := s3 }]

/-- Truncated version comparison as the spec words it (§4.1, Scenario E):
the two versions disagree on the dot-separated components of their shared
prefix, "comparing only as many dot-separated components as both strings
have". -/
def sharedVersionConflict (serviceVersion pluginVersion : String) : Bool :=
  let a := splitDots serviceVersion
  let b := splitDots pluginVersion
  let num := min a.length b.length
  decide (a.take num ≠ b.take num)

/-- Status Evaluator contract written from the spec's words (§4.1), to be
compared with the source-side `status`: MISSING if the name is absent from
the installed-plugin list; else INSTALLED if the enabled
configuration-entries-to-add do not exactly match what the configuration
store currently applies; else WAITING_FOR_UPGRADE if the shared version
prefix disagrees; else ENABLED — tested in this order. -/
def statusSpec (installedList : List String) (yml : List (String × String))
    (serviceVersion : String) (p : OpenSearchPlugin)
    (c : OpenSearchPluginConfig) : PluginState :=
  if p.name ∉ installedList then .missing
  else if c.config_entries_to_add ≠ getPluginConf c.config_entries_to_add yml then
    .installed
  else if sharedVersionConflict serviceVersion p.version then .waitingForUpgrade
  else .enabled

/-! ## Concrete instances used by witnesses and counterexamples -/

/-- A KNN-style plugin used in concrete cycles. -/
def px : OpenSearchPlugin :=
  { name := "x", version := "2.9.0",
    config := some { config_entries_to_add := [("x.enabled", "true")] },
    disable := some { config_entries_to_add := [("x.enabled", "false")] } }

/-- Environment for the C2 counterexample: plugin `x` is wanted via its
config option, absent from the node, the service is started and healthy. -/
def envC2 : Env :=
  { catalog := [{ name := "x", configKey := some "plugin_x", plugin := px }],
    configOptions := [("plugin_x", true)],
    isStarted := true, health := .green, version := "2.9.0" }

/-- A plugin that is enabled but no longer wanted (C2 amended witness). -/
def py : OpenSearchPlugin :=
  { name := "y", version := "1.0",
    config := some { config_entries_to_add := [("y.on", "true")] },
    disable := some { config_entries_to_del := ["y.on"] } }

def entryC2w : CatalogEntry := { name := "y", plugin := py }

def envC2w : Env := { catalog := [entryC2w], version := "1.0" }

def wC2w : World := { installedPlugins := ["y"], ymlConf := [("y.on", "true")] }

/-- A catalog entry with neither a gating config option nor a gating
relation (C4). -/
def pGateless : OpenSearchPlugin := { name := "p" }

def envC4 : Env := { catalog := [{ name := "p", plugin := pGateless }] }

/-- Environment for the C4 amended witness: the gating option is set. -/
def envC4w : Env :=
  { catalog := [{ name := "p", configKey := some "on_p", plugin := pGateless }],
    configOptions := [("on_p", true)] }

/-- Concrete status-evaluator input for the C3 witness: installed, delta
applied, versions agreeing on the shared prefix. -/
def pC3 : OpenSearchPlugin :=
  { name := "z", version := "2.9.0.1",
    config := some { config_entries_to_add := [("z.on", "true")] } }

def envC3 : Env := { version := "2.9.0" }

def wC3 : World := { installedPlugins := ["z"], ymlConf := [("z.on", "true")] }

/-- Concrete inputs for the C6 witness: plugin `x` wanted and missing, with
an uninstalled dependency. -/
def pC6 : OpenSearchPlugin := { name := "x", dependencies := ["lang-painless"] }

def envC6 : Env :=
  { catalog := [{ name := "x", configKey := some "plugin_x", plugin := pC6 }],
    configOptions := [("plugin_x", true)] }

/-- Concrete inputs for the C7 witness: install of wanted, missing `x`
reports "already exists"; install of wanted, missing `q` fails fatally. -/
def pC7 : OpenSearchPlugin := { name := "x" }

def envC7 : Env :=
  { catalog := [{ name := "x", configKey := some "plugin_x", plugin := pC7 }],
    configOptions := [("plugin_x", true)],
    installOutcome := [("x", .alreadyExists)] }

/-- Environment whose install command for `x` fails fatally (C7 witness,
second half). -/
def envC7b : Env :=
  { catalog := [{ name := "x", configKey := some "plugin_x", plugin := pC7 }],
    configOptions := [("plugin_x", true)],
    installOutcome := [("x", .otherError "disk full")] }

/-- Delta and store for the C8 counterexample: the delta is already
applied, so re-applying it changes nothing. -/
def cfgC8 : OpenSearchPluginConfig := { config_entries_to_add := [("a", "b")] }

def wC8 : World := { ymlConf := [("a", "b")] }

/-- A secret-only delta (C8 amended witness). -/
def cfgC8s : OpenSearchPluginConfig :=
  { secret_entries_to_add := [("s3.client.default.access_key", "k")],
    secret_entries_to_del := ["s3.client.default.secret_key"] }

/-- World kept untouched by a failed gate (C9 witness). -/
def wC9 : World :=
  { installedPlugins := ["opensearch-knn"], ymlConf := [("knn.plugin.enabled", "true")],
    keystoreEntries := [("s3.client.default.access_key", "k")] }

def entryC10 : CatalogEntry :=
  { name := "x", configKey := some "plugin_x", plugin := { name := "x" } }

/-- Environment whose `opensearch-plugin list` command fails (C10). -/
def envC10 : Env :=
  { catalog := [entryC10],
    configOptions := [("plugin_x", true)], listFails := true }

/-! ## Helper lemmas -/

/-- The health disjunction in the gate is a tautology: no single health
value can equal both GREEN and YELLOW, so the gate only ever tests
`is_started()`. -/
theorem gateRaises_eq_not_started (env : Env) :
    gateRaises env = !env.isStarted := by
  cases h : env.health <;> simp [gateRaises, h]

/-- Dot-splitting never produces the empty list of components. -/
theorem splitDotsAux_ne_nil (cs : List Char) : splitDotsAux cs ≠ [] := by
  induction cs with
  | nil => simp [splitDotsAux]
  | cons c cs ih =>
    by_cases h : c = '.'
    · simp [splitDotsAux, h]
    · rcases hs : splitDotsAux cs with _ | ⟨hd, tl⟩
      · exact absurd hs ih
      · simp [splitDotsAux, h, hs]

/-- No component produced by dot-splitting contains a dot. -/
theorem splitDotsAux_no_dot (cs : List Char) :
    ∀ l ∈ splitDotsAux cs, '.' ∉ l := by
  induction cs with
  | nil =>
    intro l hl
    simp [splitDotsAux] at hl
    simp [hl]
  | cons c cs ih =>
    intro l hl
    by_cases h : c = '.'
    · simp [splitDotsAux, h] at hl
      rcases hl with rfl | hl
      · simp
      · exact ih l hl
    · rcases hs : splitDotsAux cs with _ | ⟨hd, tl⟩
      · exact absurd hs (splitDotsAux_ne_nil cs)
      · simp [splitDotsAux, h, hs] at hl
        rcases hl with rfl | hl
        · intro hmem
          rcases List.mem_cons.mp hmem with hc | hhd
          · exact h hc.symm
          · exact ih hd (hs ▸ List.mem_cons_self hd tl) hhd
        · exact ih l (hs ▸ List.mem_cons.mpr (Or.inr hl))

/-- No component of `splitDots` contains a dot. -/
theorem splitDots_no_dot (s : String) :
    ∀ t ∈ splitDots s, '.' ∉ t.data := by
  intro t ht
  unfold splitDots at ht
  rcases List.mem_map.mp ht with ⟨l, hl, rfl⟩
  exact splitDotsAux_no_dot s.toList l hl

/-- Cancellation for character lists around the first dot: if the parts
before the dot are dot-free, both parts agree. -/
theorem append_dot_inj :
    ∀ (x y r s : List Char), '.' ∉ x → '.' ∉ y →
      x ++ '.' :: r = y ++ '.' :: s → x = y ∧ r = s := by
  intro x
  induction x with
  | nil =>
    intro y r s _ hy heq
    cases y with
    | nil => simpa using heq
    | cons d y' =>
      simp only [List.nil_append, List.cons_append, List.cons.injEq] at heq
      exact absurd (heq.1 ▸ List.mem_cons_self d y') hy
  | cons c x' ih =>
    intro y r s hx hy heq
    cases y with
    | nil =>
      simp only [List.cons_append, List.nil_append, List.cons.injEq] at heq
      exact absurd (heq.1 ▸ List.mem_cons_self c x') hx
    | cons d y' =>
      simp only [List.cons_append, List.cons.injEq] at heq
      obtain ⟨rfl, heq2⟩ := heq
      have hx' : '.' ∉ x' := fun hm => hx (List.mem_cons.mpr (Or.inr hm))
      have hy' : '.' ∉ y' := fun hm => hy (List.mem_cons.mpr (Or.inr hm))
      obtain ⟨h1, h2⟩ := ih y' r s hx' hy' heq2
      exact ⟨by rw [h1], h2⟩

/-- Joining dot-free components with dots is injective on lists of equal
length. -/
theorem joinDots_inj :
    ∀ (a b : List String), a.length = b.length →
      (∀ t ∈ a, '.' ∉ t.data) → (∀ t ∈ b, '.' ∉ t.data) →
      joinDots a = joinDots b → a = b := by
  intro a
  induction a with
  | nil =>
    intro b hlen _ _ _
    cases b with
    | nil => rfl
    | cons _ _ => simp at hlen
  | cons x xs ih =>
    intro b hlen ha hb heq
    cases b with
    | nil => simp at hlen
    | cons y ys =>
      cases xs with
      | nil =>
        cases ys with
        | nil => simpa [joinDots] using heq
        | cons _ _ => simp at hlen
      | cons x2 xs2 =>
        cases ys with
        | nil => simp at hlen
        | cons y2 ys2 =>
          have hdata : x.data ++ '.' :: (joinDots (x2 :: xs2)).data
              = y.data ++ '.' :: (joinDots (y2 :: ys2)).data := by
            have hd := congrArg String.data heq
            simpa [joinDots, String.data_append] using hd
          obtain ⟨h1, h2⟩ := append_dot_inj _ _ _ _
            (ha x (List.mem_cons_self x (x2 :: xs2)))
            (hb y (List.mem_cons_self y (y2 :: ys2))) hdata
          have hxy : x = y := String.ext h1
          have htail : (x2 :: xs2) = (y2 :: ys2) :=
            ih (y2 :: ys2) (by simpa using hlen)
              (fun t ht => ha t (List.mem_cons.mpr (Or.inr ht)))
              (fun t ht => hb t (List.mem_cons.mpr (Or.inr ht)))
              (String.ext h2)
          rw [hxy, htail]

/-- The source's joined-string prefix comparison agrees with the spec's
component-list prefix comparison. -/
theorem needsUpgrade_eq_conflict (v pv : String) :
    needsUpgrade v pv = sharedVersionConflict v pv := by
  simp only [needsUpgrade, sharedVersionConflict]
  rw [Nat.min_comm (splitDots pv).length (splitDots v).length]
  rw [decide_eq_decide]
  constructor
  · intro hne hlist
    exact hne (by rw [hlist])
  · intro hne hjoin
    apply hne
    apply joinDots_inj
    · simp only [List.length_take]
      omega
    · intro t ht
      exact splitDots_no_dot v t (List.mem_of_mem_take ht)
    · intro t ht
      exact splitDots_no_dot pv t (List.mem_of_mem_take ht)
    · exact hjoin

/-! ## C3 -/

set_option maxRecDepth 4000 in
/-- C3: `status` refines the spec's Status Evaluator: with a readable
installed-plugin list and a readable enabled-delta, it returns MISSING
exactly when the name is absent from the installed list, else INSTALLED
exactly when the entries-to-add differ (exact mapping equality) from the
store's current entries for those keys, else WAITING_FOR_UPGRADE exactly
when the shared version prefix disagrees, else ENABLED — in this order. -/
theorem c3_status_order (env : Env) (w : World) (p : OpenSearchPlugin)
    (c : OpenSearchPluginConfig) (hl : env.listFails = false)
    (hc : p.config = some c) :
    status env w p
      = .ok (statusSpec w.installedPlugins w.ymlConf env.version p c) := by
  have hen : isEnabled w.ymlConf p
      = decide (c.config_entries_to_add
          = getPluginConf c.config_entries_to_add w.ymlConf) := by
    simp [isEnabled, hc]
  by_cases hmem : p.name ∈ w.installedPlugins
  · by_cases heq : c.config_entries_to_add
        = getPluginConf c.config_entries_to_add w.ymlConf
    · have d2 : decide (c.config_entries_to_add
          = getPluginConf c.config_entries_to_add w.ymlConf) = true :=
        decide_eq_true heq
      have d2' : (c.config_entries_to_add
          ≠ getPluginConf c.config_entries_to_add w.ymlConf) = False :=
        eq_false (not_not_intro heq)
      cases hup : sharedVersionConflict env.version p.version <;>
        simp [status, statusSpec, isInstalled, listInstalledPlugins, hl, hen,
          hmem, d2, d2', needsUpgrade_eq_conflict, hup]
    · simp [status, statusSpec, isInstalled, listInstalledPlugins, hl, hen,
        hmem, heq]
  · simp [status, statusSpec, isInstalled, listInstalledPlugins, hl, hmem]

/-- Concrete instance of C3: an installed, fully configured plugin whose
version agrees with the service on the shared prefix, evaluated through
both the source-side and the spec-side definitions. -/
theorem c3_witness :
    status envC3 wC3 pC3
      = .ok (statusSpec wC3.installedPlugins wC3.ymlConf envC3.version pC3
          { config_entries_to_add := [("z.on", "true")] })
    ∧ status envC3 wC3 pC3 = .ok .enabled :=
  ⟨c3_status_order envC3 wC3 pC3 { config_entries_to_add := [("z.on", "true")] }
    rfl rfl, by rfl⟩

/-! ## C5 -/

/-- C5: the version comparison compares only as many dot-separated
components as both version strings have — no pending upgrade exactly when
the truncated component lists agree; in particular with service version
"2.9.0" and plugin version "2.9.0.1" no upgrade is pending, and an
installed, enabled such plugin evaluates to ENABLED, not
WAITING_FOR_UPGRADE. -/
theorem c5_version_truncation :
    (∀ version plugin_version : String,
      needsUpgrade version plugin_version = false ↔
        (splitDots version).take
            (min (splitDots version).length (splitDots plugin_version).length)
          = (splitDots plugin_version).take
            (min (splitDots version).length (splitDots plugin_version).length))
    ∧ (∀ (env : Env) (w : World) (p : OpenSearchPlugin),
        env.version = "2.9.0" → p.version = "2.9.0.1" →
        needsUpgrade env.version p.version = false
        ∧ (env.listFails = false → p.name ∈ w.installedPlugins →
            isEnabled w.ymlConf p = true → status env w p = .ok .enabled)) := by
  constructor
  · intro version plugin_version
    rw [needsUpgrade_eq_conflict]
    simp only [sharedVersionConflict]
    simp
  · intro env w p hv hp
    have hnu : needsUpgrade env.version p.version = false := by
      rw [hv, hp]; decide
    refine ⟨hnu, fun hl hmem hen => ?_⟩
    simp [status, isInstalled, listInstalledPlugins, hl, hmem, hen, hnu]

/-- Concrete instance of C5: service "2.9.0", plugin "2.9.0.1" (Scenario
E). -/
theorem c5_witness :
    needsUpgrade envC3.version pC3.version = false
    ∧ status envC3 wC3 pC3 = .ok .enabled := by
  have h := c5_version_truncation.2 envC3 wC3 pC3 rfl rfl
  exact ⟨h.1, h.2 rfl (by decide) (by decide)⟩

/-! ## C1 -/

/-- C1 (code bug): the source's gate condition
`not is_started() and (health != GREEN or health != YELLOW)` ignores the
health reading entirely (the disjunction is a tautology), so `run` with a
running service and RED health passes the gate silently and completes the
cycle, where the claim and the code's own comment ("If the health is not
green, then raise a cluster-not-ready error") require the retryable
cluster-not-ready failure. -/
theorem c1_gate_ignores_health :
    (∀ env : Env, gateRaises env = !env.isStarted)
    ∧ (∀ w : World,
        run { isStarted := true, health := HealthColors.red } w
          = (.ok false, w, [])) := by
  refine ⟨gateRaises_eq_not_started, fun w => rfl⟩

/-! ## C9 -/

/-- C9: gate-first ordering — whenever the readiness gate fails (per the
code, exactly when the service is not started), `run` raises the retryable
cluster-not-ready condition with the external stores untouched and an
empty action trace: no install, configure or disable phase ran for any
plugin. -/
theorem c9_gate_first_no_mutation (env : Env) (w : World)
    (h : env.isStarted = false) :
    run env w = (.error .clusterNotReady, w, []) := by
  have hg : gateRaises env = true := by
    rw [gateRaises_eq_not_started, h]; rfl
  simp [run, hg]

/-- Concrete instance of C9: a populated world survives a failed gate
unchanged. -/
theorem c9_witness :
    run { isStarted := false, health := HealthColors.red } wC9
      = (.error .clusterNotReady, wC9, []) :=
  c9_gate_first_no_mutation { isStarted := false, health := HealthColors.red } wC9 rfl

/-! ## C10 -/

/-- C10: a failing `opensearch-plugin list` command propagates as a plugin
error: `status` raises instead of returning any `PluginState`; the install
phase raises (it reads the list before its try-block); the configure phase
raises whenever it reaches its status read (the user requested the plugin)
and the disable phase raises whenever it reaches its status read (the user
did not request it); and a full cycle whose gate passes raises the plugin
error with no store mutated.  The failure is never downgraded to "not
installed" or "not enabled". -/
theorem c10_list_failure_propagates (env : Env) (w : World)
    (p : OpenSearchPlugin) (h : env.listFails = true) :
    status env w p = .error (.pluginError "Failed to list plugins")
    ∧ installIfNeeded env w p
        = (.error (.pluginError "Failed to list plugins"), w, [])
    ∧ (userRequestedToEnable env p = .ok true →
        configureIfNeeded env w p
          = (.error (.pluginError "Failed to list plugins"), w, []))
    ∧ (userRequestedToEnable env p = .ok false →
        disableIfNeeded env w p
          = (.error (.pluginError "Failed to list plugins"), w, []))
    ∧ (env.isStarted = true → env.catalog ≠ [] →
        (run env w).1 = .error (.pluginError "Failed to list plugins")
          ∧ (run env w).2.1 = w) := by
  have hst : status env w p = .error (.pluginError "Failed to list plugins") := by
    simp [status, isInstalled, listInstalledPlugins, h]
  refine ⟨hst, ?_, ?_, ?_, ?_⟩
  · simp [installIfNeeded, listInstalledPlugins, h]
  · intro hreq
    simp [configureIfNeeded, hreq, hst]
  · intro hreq
    simp [disableIfNeeded, hreq, hst]
  · intro hs hcat
    have hg : gateRaises env = false := by
      rw [gateRaises_eq_not_started, hs]; rfl
    rcases hc : env.catalog with _ | ⟨e, es⟩
    · exact absurd hc hcat
    · have hinst : installIfNeeded env w e.plugin
          = (.error (.pluginError "Failed to list plugins"), w, []) := by
        simp [installIfNeeded, listInstalledPlugins, h]
      simp [run, hg, hc, runLoop, hinst]

/-- Concrete instance of C10: with the list command failing, the status
read and a whole gated cycle surface the plugin error and leave the world
alone. -/
theorem c10_witness :
    status envC10 { installedPlugins := ["x"] } { name := "x" }
      = .error (.pluginError "Failed to list plugins")
    ∧ (run envC10 { installedPlugins := ["x"] }).1
      = .error (.pluginError "Failed to list plugins") := by
  have h := c10_list_failure_propagates envC10 { installedPlugins := ["x"] }
    { name := "x" } rfl
  exact ⟨h.1, (h.2.2.2.2 rfl (by simp [envC10])).1⟩

/-! ## C4 -/

/-- C4 (counterexample): for a catalog entry with neither a gating config
option nor a gating relation, the desired-state resolver returns false —
not true as the claim's "absence of a gate means always considered
requested" asserts: `config.get(None, False)` reads the default `False`
and `_is_plugin_relation_set(None)` returns false, so the plugin is
treated as asked-to-disable. -/
theorem c4_counterexample :
    userRequestedToEnable envC4 pGateless = .ok false
    ∧ userRequestedToEnable envC4 pGateless ≠ .ok true := by
  refine ⟨rfl, ?_⟩
  intro h
  rw [show userRequestedToEnable envC4 pGateless = .ok false from rfl] at h
  exact Bool.noConfusion (Except.ok.inj h)

/-- C4 (amended): the resolver returns true iff the gating config option
is truthy OR the gating relation is set with at least one connected remote
unit; consequently a plugin with neither gate configured always resolves to
false (it is treated as not requested). -/
theorem c4_amended (env : Env) (p : OpenSearchPlugin) (entry : CatalogEntry)
    (hfind : env.catalog.find? (fun e => e.name == p.name) = some entry) :
    userRequestedToEnable env p
      = .ok (configGet env entry.configKey
          || isPluginRelationSet env entry.relationName)
    ∧ (entry.configKey = none → entry.relationName = none →
        userRequestedToEnable env p = .ok false) := by
  have h1 : userRequestedToEnable env p
      = .ok (configGet env entry.configKey
          || isPluginRelationSet env entry.relationName) := by
    unfold userRequestedToEnable
    rw [hfind]
    cases hcg : configGet env entry.configKey <;>
      cases hrs : isPluginRelationSet env entry.relationName <;>
      simp [hcg, hrs]
  refine ⟨h1, fun hck hrn => ?_⟩
  rw [h1, hck, hrn]
  rfl

/-- Concrete instance of C4 (amended): with the gating option set to true
the resolver returns exactly the disjunction of the two gates. -/
theorem c4_witness :
    userRequestedToEnable envC4w pGateless
      = .ok (configGet envC4w (some "on_p") || isPluginRelationSet envC4w none)
    ∧ userRequestedToEnable envC4w pGateless = .ok true := by
  have h := c4_amended envC4w pGateless
    { name := "p", configKey := some "on_p", plugin := pGateless } rfl
  exact ⟨h.1, rfl⟩

/-! ## C2 -/

/-- C2 (counterexample): one full cycle over a single-plugin catalog whose
plugin `x` starts MISSING and wanted: the trace records both the external
install command and the configuration-store addition applied by the
configure phase — the install and configure phases both act on `x` in the
same cycle, because the configure phase re-reads the status after the
install phase has changed the installed-plugin list. -/
theorem c2_install_and_configure_same_cycle :
    run envC2 { } = (.ok true,
      { installedPlugins := ["x"], ymlConf := [("x.enabled", "true")] },
      [Action.installCmd "x", Action.configAdd [("x.enabled", "true")]])
    ∧ Action.installCmd "x" ∈ (run envC2 { }).2.2
    ∧ Action.configAdd [("x.enabled", "true")] ∈ (run envC2 { }).2.2 := by
  refine ⟨rfl, ?_, ?_⟩ <;> decide

/-- When the user did not request a plugin, the configure phase is a
no-op. -/
theorem configure_not_requested (env : Env) (w : World) (p : OpenSearchPlugin)
    (hreq : userRequestedToEnable env p = .ok false) :
    configureIfNeeded env w p = (.ok false, w, []) := by
  unfold configureIfNeeded
  rw [hreq]
  simp

/-- When the user did not request a plugin, the install phase either is a
no-op or raises, but never mutates or acts. -/
theorem install_not_requested (env : Env) (w : World) (p : OpenSearchPlugin)
    (hreq : userRequestedToEnable env p = .ok false) :
    installIfNeeded env w p = (.ok false, w, [])
    ∨ ∃ e, installIfNeeded env w p = (.error e, w, []) := by
  cases hlist : listInstalledPlugins env w with
  | error e => exact Or.inr ⟨e, by simp [installIfNeeded, hlist]⟩
  | ok installed =>
    cases hst : status env w p with
    | error e => exact Or.inr ⟨e, by simp [installIfNeeded, hlist, hst]⟩
    | ok st =>
      by_cases hm : st = .missing
      · subst hm
        exact Or.inl (by simp [installIfNeeded, hlist, hst, hreq])
      · exact Or.inl (by simp [installIfNeeded, hlist, hst, hm])

/-- When the user did request a plugin, the disable phase is a no-op. -/
theorem disable_requested (env : Env) (w : World) (p : OpenSearchPlugin)
    (hreq : userRequestedToEnable env p = .ok true) :
    disableIfNeeded env w p = (.ok false, w, []) := by
  unfold disableIfNeeded
  rw [hreq]
  simp

/-- When the catalog lookup raises, the disable phase raises without
acting. -/
theorem disable_no_catalog (env : Env) (w : World) (p : OpenSearchPlugin)
    (hreq : userRequestedToEnable env p = .error ()) :
    disableIfNeeded env w p = (.error .missingConfig, w, []) := by
  unfold disableIfNeeded
  rw [hreq]

/-- C2 (amended): in the phase order `run` uses, the disable phase excludes
the other two — if the disable phase acts on a plugin (returns true or
records any action), then the install and configure phases of the same
cycle were no-ops for it (the desired-state value is read from the same
environment by all three phases).  The install and configure phases,
however, are not mutually exclusive (see the counterexample). -/
theorem c2_amended (env : Env) (w : World) (p : OpenSearchPlugin)
    {b1 b2 : Bool} {r3 : Except PluginErr Bool} {w1 w2 w3 : World}
    {a1 a2 a3 : List Action}
    (h1 : installIfNeeded env w p = (.ok b1, w1, a1))
    (h2 : configureIfNeeded env w1 p = (.ok b2, w2, a2))
    (h3 : disableIfNeeded env w2 p = (r3, w3, a3))
    (hact : r3 = .ok true ∨ a3 ≠ []) :
    b1 = false ∧ a1 = [] ∧ b2 = false ∧ a2 = [] := by
  have hreq : userRequestedToEnable env p = .ok false := by
    cases hr : userRequestedToEnable env p with
    | error e =>
      cases e
      have h := (disable_no_catalog env w2 p hr).symm.trans h3
      simp only [Prod.mk.injEq] at h
      obtain ⟨h3r, -, h3a⟩ := h
      rcases hact with hact | hact
      · exact Except.noConfusion (h3r.trans hact)
      · exact absurd h3a.symm hact
    | ok b =>
      cases b with
      | false => rfl
      | true =>
        have h := (disable_requested env w2 p hr).symm.trans h3
        simp only [Prod.mk.injEq] at h
        obtain ⟨h3r, -, h3a⟩ := h
        rcases hact with hact | hact
        · exact Bool.noConfusion (Except.ok.inj (h3r.trans hact))
        · exact absurd h3a.symm hact
  have hc := (configure_not_requested env w1 p hreq).symm.trans h2
  simp only [Prod.mk.injEq] at hc
  obtain ⟨hc1, -, hc3⟩ := hc
  rcases install_not_requested env w p hreq with hi | ⟨e, hi⟩
  · have hi' := hi.symm.trans h1
    simp only [Prod.mk.injEq] at hi'
    obtain ⟨hi1, -, hi3⟩ := hi'
    exact ⟨(Except.ok.inj hi1).symm, hi3.symm, (Except.ok.inj hc1).symm, hc3.symm⟩
  · have hi' := hi.symm.trans h1
    simp only [Prod.mk.injEq] at hi'
    exact absurd hi'.1 (by simp)

/-- Concrete instance of C2 (amended): a no-longer-wanted enabled plugin is
disabled, and neither the install nor the configure phase acted. -/
theorem c2_amended_witness :
    disableIfNeeded envC2w wC2w py
      = (.ok true, { installedPlugins := ["y"] }, [Action.configDel ["y.on"]])
    ∧ (false = false ∧ ([] : List Action) = []
        ∧ false = false ∧ ([] : List Action) = []) :=
  ⟨rfl, c2_amended envC2w wC2w py rfl rfl rfl (Or.inl rfl)⟩

/-! ## C6 -/

/-- With a readable list, a MISSING and wanted plugin, the install phase
reduces to the dependency check followed by the install command. -/
theorem install_reaches_deps (env : Env) (w : World) (p : OpenSearchPlugin)
    (hl : env.listFails = false) (hst : status env w p = .ok .missing)
    (hreq : userRequestedToEnable env p = .ok true) :
    installIfNeeded env w p =
      (if !(p.dependencies.filter
            (fun dep => !w.installedPlugins.contains dep)).isEmpty then
        (.error (.missingDeps p.name
          (p.dependencies.filter (fun dep => !w.installedPlugins.contains dep))),
          w, [])
      else
        match (env.installOutcome.lookup p.name).getD .success with
        | .success =>
          (.ok true, { w with installedPlugins := w.installedPlugins ++ [p.name] },
            [.installCmd p.name])
        | .alreadyExists => (.ok false, w, [.installCmd p.name])
        | .otherError msg =>
          (.error (.installError (p.name ++ ": " ++ msg)), w,
            [.installCmd p.name])) := by
  unfold installIfNeeded
  simp [listInstalledPlugins, hl, hst, hreq]

/-- C6: for a MISSING, wanted plugin, if any declared dependency is absent
from the installed-plugin list the install phase raises the
missing-dependencies error without invoking the install command (empty
trace, world untouched); and whenever the install command does appear in
the phase's trace, every declared dependency is present. -/
theorem c6_dependency_gating (env : Env) (w : World) (p : OpenSearchPlugin)
    (hl : env.listFails = false) (hst : status env w p = .ok .missing)
    (hreq : userRequestedToEnable env p = .ok true) :
    (p.dependencies.filter (fun dep => !w.installedPlugins.contains dep) ≠ [] →
      installIfNeeded env w p
        = (.error (.missingDeps p.name
            (p.dependencies.filter (fun dep => !w.installedPlugins.contains dep))),
           w, []))
    ∧ (Action.installCmd p.name ∈ (installIfNeeded env w p).2.2 →
        ∀ dep ∈ p.dependencies, dep ∈ w.installedPlugins) := by
  have hr := install_reaches_deps env w p hl hst hreq
  constructor
  · intro hdeps
    rw [hr, if_pos (by simpa using hdeps)]
  · intro hmem dep hdep
    by_cases hdeps :
        p.dependencies.filter (fun d => !w.installedPlugins.contains d) = []
    · have := List.filter_eq_nil_iff.mp hdeps dep hdep
      simpa using this
    · rw [hr, if_pos (by simpa using hdeps)] at hmem
      simp at hmem

/-- Concrete instance of C6: plugin `x` is missing and wanted but its
dependency `lang-painless` is not installed, so the phase fails with the
missing-dependencies error and an empty trace. -/
theorem c6_witness :
    installIfNeeded envC6 { } pC6
      = (.error (.missingDeps "x" ["lang-painless"]), { }, []) := by
  have h := (c6_dependency_gating envC6 { } pC6 rfl rfl rfl).1 (by decide)
  simpa using h

/-! ## C7 -/

/-- C7: for a MISSING, wanted plugin with all dependencies present, an
install command failing with "already exists" is a benign no-op — no error
raised, restart-required false, world untouched — while any other command
error surfaces as a fatal install error. -/
theorem c7_already_exists_benign (env : Env) (w : World) (p : OpenSearchPlugin)
    (hl : env.listFails = false) (hst : status env w p = .ok .missing)
    (hreq : userRequestedToEnable env p = .ok true)
    (hdeps : p.dependencies.filter (fun dep => !w.installedPlugins.contains dep) = []) :
    ((env.installOutcome.lookup p.name).getD .success = .alreadyExists →
      installIfNeeded env w p = (.ok false, w, [.installCmd p.name]))
    ∧ (∀ msg, (env.installOutcome.lookup p.name).getD .success = .otherError msg →
        installIfNeeded env w p
          = (.error (.installError (p.name ++ ": " ++ msg)), w,
             [.installCmd p.name])) := by
  have hr := install_reaches_deps env w p hl hst hreq
  rw [hdeps] at hr
  simp only [List.isEmpty_nil, Bool.not_true, Bool.false_eq_true, if_false] at hr
  constructor
  · intro hout
    rw [hr, hout]
  · intro msg hout
    rw [hr, hout]

/-- Concrete instance of C7: the install of missing, wanted `x` reports
"already exists" (benign, returns false) in `envC7`, and fails fatally in
`envC7b`. -/
theorem c7_witness :
    installIfNeeded envC7 { } pC7 = (.ok false, { }, [Action.installCmd "x"])
    ∧ installIfNeeded envC7b { } pC7
      = (.error (.installError ("x" ++ ": " ++ "disk full")), { },
         [Action.installCmd "x"]) :=
  ⟨(c7_already_exists_benign envC7 { } pC7 rfl rfl rfl rfl).1 rfl,
   (c7_already_exists_benign envC7b { } pC7 rfl rfl rfl rfl).2 "disk full" rfl⟩

/-! ## C8 -/

/-- C8 (counterexample): re-applying an already-applied delta changes
nothing in any store, yet the applier returns true — refuting "returns
true iff some configuration entry changed": the return value only reports
that the delta mentions configuration entries. -/
theorem c8_reapply_returns_true :
    (applyConfig cfgC8 wC8).1 = true ∧ (applyConfig cfgC8 wC8).2.1 = wC8 := by
  decide

/-- C8 (amended): the applier returns true iff the delta's
configuration-entry add set or delete set is non-empty (secret entries do
not count), regardless of whether the store contents actually changed; in
particular a delta touching only secret entries returns false and leaves
the configuration store untouched. -/
theorem c8_amended (config : OpenSearchPluginConfig) (w : World) :
    (applyConfig config w).1
      = (!config.config_entries_to_add.isEmpty
          || !config.config_entries_to_del.isEmpty)
    ∧ (config.config_entries_to_add = [] → config.config_entries_to_del = [] →
        (applyConfig config w).1 = false
        ∧ (applyConfig config w).2.1.ymlConf = w.ymlConf) := by
  refine ⟨rfl, fun h1 h2 => ?_⟩
  simp [applyConfig, h1, h2]

/-- Concrete instance of C8 (amended): a secret-only delta returns false
and leaves the configuration store untouched. -/
theorem c8_witness :
    (applyConfig cfgC8s wC8).1 = false
    ∧ (applyConfig cfgC8s wC8).2.1.ymlConf = wC8.ymlConf :=
  (c8_amended cfgC8s wC8).2 rfl rfl

end PluginMgr
